import Mathlib

/-!
Shallow embedding of the SkySense flight-price prediction engine
(src/backend/pipeline.py and the reporting code in src/backend/main.py).

Python floats are modelled as rationals (ℚ); a nullable duration is
`Option ℚ`; the route-median `dict` is an association list looked up by
`dictFind`; the random forest is a list of per-tree prediction functions,
whose aggregate prediction is the mean of the individual tree predictions
(the sklearn `RandomForestRegressor.predict` semantics).  The standard
deviation of the per-tree predictions is irrational in general, so it is
characterised relationally by `isStd` (non-negative square root of the
population variance that `np.std` computes with its default `ddof=0`).
-/

namespace SkySense

/-- pipeline.py lines 17-19: the fixed airline vocabulary. -/
def ALLOWED_AIRLINES : List String :=
  ["Vistara", "Air_India", "Indigo", "GO_FIRST", "AirAsia", "SpiceJet", "Unknown"]

/-- pipeline.py line 20: the fixed city vocabulary. -/
def ALLOWED_CITIES : List String :=
  ["Delhi", "Mumbai", "Bangalore", "Kolkata", "Hyderabad", "Chennai"]

/-- pipeline.py lines 21-23: the fixed time-band vocabulary. -/
def ALLOWED_TIMES : List String :=
  ["Early_Morning", "Morning", "Afternoon", "Evening", "Night", "Late_Night", "Unknown"]

/-- pipeline.py line 64: `df[col].where(df[col].isin(allowed), "Unknown")`
applied to one cell: keep the value when it is in the allowed vocabulary,
otherwise substitute the sentinel. -/
def normalizeCategory (allowed : List String) (v : String) : String :=
  if v ∈ allowed then v else "Unknown"

/-- pipeline.py lines 55-61: the five categorical columns and the
vocabulary each one is normalized against. -/
def categoricalColumns : List (String × List String) :=
  [("airline", ALLOWED_AIRLINES),
   ("source_city", ALLOWED_CITIES),
   ("departure_time", ALLOWED_TIMES),
   ("arrival_time", ALLOWED_TIMES),
   ("destination_city", ALLOWED_CITIES)]

/-- One row of the training dataframe as `_build_route_medians` sees it:
the two route columns and the (possibly missing, i.e. NaN) duration. -/
structure DataRow where
  source_city : String
  destination_city : String
  duration : Option ℚ

/-- pipeline.py lines 31-34: the `RouteMedians` dataclass.  The Python
dict is an association list. -/
structure RouteMedians where
  route_to_duration_median : List ((String × String) × ℚ)
  global_duration_median : ℚ

/-- Python-dict lookup on an association list: first entry with the key. -/
def dictFind (m : List ((String × String) × ℚ)) (k : String × String) : Option ℚ :=
  match m with
  | [] => none
  | (k', v) :: rest => if k = k' then some v else dictFind rest k

/-- Insert a value into an already sorted list (ascending). -/
def insertSorted (x : ℚ) : List ℚ → List ℚ
  | [] => [x]
  | y :: ys => if x ≤ y then x :: y :: ys else y :: insertSorted x ys

/-- Sort a list of rationals ascending (insertion sort). -/
def sortRat (l : List ℚ) : List ℚ := l.foldr insertSorted []

/-- pandas median of a list of values: middle element of the sorted list,
or the average of the two middle elements for an even count. -/
def median (l : List ℚ) : ℚ :=
  let s := sortRat l
  let n := s.length
  if n % 2 = 1 then s.getD (n / 2) 0
  else (s.getD (n / 2 - 1) 0 + s.getD (n / 2) 0) / 2

/-- pipeline.py lines 84-86: the known (non-NaN) durations of the rows of
one (source_city, destination_city) group. -/
def knownDurations (df : List DataRow) (src dst : String) : List ℚ :=
  (df.filter (fun r => r.source_city == src && r.destination_city == dst)).filterMap
    (fun r => r.duration)

/-- pipeline.py line 88: all known durations of the frame (pandas
`Series.median()` skips NaN). -/
def allKnownDurations (df : List DataRow) : List ℚ :=
  df.filterMap (fun r => r.duration)

/-- The group keys produced by `dropna(subset=["duration"]).groupby(...)`:
the distinct routes having at least one known duration. -/
def observedRoutes (df : List DataRow) : List (String × String) :=
  ((df.filter (fun r => r.duration.isSome)).map
    (fun r => (r.source_city, r.destination_city))).dedup

/-- pipeline.py lines 81-92: `_build_route_medians`.  Per-route medians of
the known durations, and the global median with the 2.0 fallback when
every duration is missing. -/
def buildRouteMedians (df : List DataRow) : RouteMedians :=
  { route_to_duration_median :=
      (observedRoutes df).map (fun p => (p, median (knownDurations df p.1 p.2))),
    global_duration_median :=
      if allKnownDurations df = [] then 2 else median (allKnownDurations df) }

/-- pipeline.py lines 167-168: `key in self.route_medians.route_to_duration_median`
followed by the dict access. -/
def lookupRoute (rm : RouteMedians) (src dst : String) : Option ℚ :=
  dictFind rm.route_to_duration_median (src, dst)

/-- The spec's `durationFor(origin, destination)`: route-specific median if
the pair is a key of the table, else the global median (pipeline.py
lines 168-171). -/
def durationFor (rm : RouteMedians) (src dst : String) : ℚ :=
  match lookupRoute rm src dst with
  | some m => m
  | none => rm.global_duration_median

/-- pipeline.py lines 163-172: `impute_duration`.  Returns
(value, wasImputed, imputedValue). -/
def imputeDuration (rm : RouteMedians) (src dst : String) (duration : Option ℚ) :
    ℚ × Bool × ℚ :=
  match duration with
  | some d =>
      if 0 < d then (d, false, 0)
      else (durationFor rm src dst, true, durationFor rm src dst)
  | none => (durationFor rm src dst, true, durationFor rm src dst)

/-- The feature row fed to the pipeline, as assembled in main.py lines
122-134 (`class` is a Lean keyword, so that column is `cabinClass`). -/
structure TripRow where
  airline : String
  source_city : String
  departure_time : String
  arrival_time : String
  destination_city : String
  stops : ℤ
  cabinClass : ℤ
  days_left : ℤ
  duration : ℚ

/-- The fitted random forest: its individual trees, each a prediction
function on feature rows (`model.estimators_`). -/
structure Forest where
  trees : List (TripRow → ℚ)

/-- Mean of a list of rationals (`np.mean`, and the aggregation a
`RandomForestRegressor` applies over its trees). -/
def mean (l : List ℚ) : ℚ := l.sum / (l.length : ℚ)

/-- pipeline.py line 179: the per-tree predictions
`[est.predict(...)[0] for est in model.estimators_]`. -/
def treePredictions (f : Forest) (x : TripRow) : List ℚ :=
  f.trees.map (fun t => t x)

/-- pipeline.py line 177: `self.pipeline.predict(features)[0]`, the
forest's aggregate prediction, i.e. the mean of its trees' predictions. -/
def forestPredict (f : Forest) (x : TripRow) : ℚ :=
  mean (treePredictions f x)

/-- The population variance `np.std(trees) ** 2` (`np.std` defaults to
`ddof=0`: divide by the number of trees). -/
def popVariance (l : List ℚ) : ℚ :=
  ((l.map (fun v => (v - mean l) ^ 2)).sum) / (l.length : ℚ)

/-- The Bessel-corrected (ddof=1) variance: what the square of a
*sample* standard deviation in the statistical sense would be.  Written
from the spec's words for comparison with `popVariance`, which is what
the code computes. -/
def sampleVariance (l : List ℚ) : ℚ :=
  ((l.map (fun v => (v - mean l) ^ 2)).sum) / ((l.length : ℚ) - 1)

/-- `s` is the value `np.std` returns on `l`: the non-negative square
root of the population variance (pipeline.py line 180). -/
def isStd (l : List ℚ) (s : ℚ) : Prop :=
  0 ≤ s ∧ s ^ 2 = popVariance l

/-- `s` is the sample (ddof=1) standard deviation of `l` named by the
spec: the non-negative square root of the Bessel-corrected variance. -/
def isSampleStd (l : List ℚ) (s : ℚ) : Prop :=
  0 ≤ s ∧ s ^ 2 = sampleVariance l

/-- pipeline.py lines 174-183: `predict_with_uncertainty`, given the
standard deviation `s` of the per-tree predictions.  Returns
(point, lower, upper) with the symmetric 1.96-sigma band. -/
def predictWithUncertainty (f : Forest) (x : TripRow) (s : ℚ) : ℚ × ℚ × ℚ :=
  let pred := forestPredict f x
  (pred, pred - 196 / 100 * s, pred + 196 / 100 * s)

/-- main.py lines 161-162: the reported bounds
`max(lower, 0.0)` and `max(upper, 0.0)`. -/
def clampBounds (lower upper : ℚ) : ℚ × ℚ :=
  (max lower 0, max upper 0)

/-- One contribution record (pipeline.py lines 226-230). -/
structure Contrib where
  feature : String
  contribution : ℚ
  direction : String
deriving DecidableEq

/-- pipeline.py lines 192-202: the contribution baseline — the instance
with the optional categoricals forced to "Unknown" and the duration
forced to the global route-median fallback. -/
def baselineOf (rm : RouteMedians) (inst : TripRow) : TripRow :=
  { inst with
    airline := "Unknown"
    departure_time := "Unknown"
    arrival_time := "Unknown"
    duration := rm.global_duration_median }

/-- pipeline.py lines 207-217: the nine toggle groups, in source order. -/
def groups : List String :=
  ["class", "stops", "days_left", "duration", "airline", "source_city",
   "departure_time", "arrival_time", "destination_city"]

/-- pipeline.py lines 221-223: the baseline with one group's column
restored from the instance. -/
def toggled (base inst : TripRow) : String → TripRow
  | "class" => { base with cabinClass := inst.cabinClass }
  | "stops" => { base with stops := inst.stops }
  | "days_left" => { base with days_left := inst.days_left }
  | "duration" => { base with duration := inst.duration }
  | "airline" => { base with airline := inst.airline }
  | "source_city" => { base with source_city := inst.source_city }
  | "departure_time" => { base with departure_time := inst.departure_time }
  | "arrival_time" => { base with arrival_time := inst.arrival_time }
  | "destination_city" => { base with destination_city := inst.destination_city }
  | _ => base

/-- pipeline.py lines 224-230: the contribution record of one group
(`local_contributions` uses only the point component of
`predict_with_uncertainty`, which is `forestPredict`). -/
def contribFor (f : Forest) (rm : RouteMedians) (inst : TripRow) (g : String) : Contrib :=
  let base := baselineOf rm inst
  let delta := forestPredict f (toggled base inst g) - forestPredict f base
  { feature := g
    contribution := |delta|
    direction := if 0 ≤ delta then "+" else "-" }

/-- pipeline.py lines 185-232: `local_contributions` — one record per
group, stable-sorted descending by magnitude (Python `list.sort` with
`reverse=True`), truncated to the top 5. -/
def localContributions (f : Forest) (rm : RouteMedians) (inst : TripRow) : List Contrib :=
  ((groups.map (contribFor f rm inst)).mergeSort
    (fun a b => decide (b.contribution ≤ a.contribution))).take 5

/-- The fitted pipeline object: for the claims about the model lifecycle
only its identity matters, carried by the forest it contains. -/
structure FittedPipeline where
  forest : Forest

/-- The persisted `model.joblib` bundle (pipeline.py lines 155-160),
together with its filesystem modification time.  `model_version` is
optional because `train_or_load` reads it with `loaded.get`. -/
structure Artifact where
  mtime : ℕ
  pipeline : FittedPipeline
  route_medians : RouteMedians
  feature_names_out : List String
  model_version : Option String

/-- The filesystem state `train_or_load` consults: the dataset's
modification time and the optional persisted artifact. -/
structure FileSystem where
  csv_mtime : ℕ
  artifact : Option Artifact

/-- The mutable fields of `FlightPriceModel` (pipeline.py lines 38-43),
all `None` after `__init__`. -/
structure FlightPriceModel where
  pipeline : Option FittedPipeline := none
  route_medians : Option RouteMedians := none
  feature_names_out : Option (List String) := none
  model_version : Option String := none

/-- pipeline.py lines 131-160: the retraining path of `train_or_load`.
Fitting the forest and deriving the encoder's output feature names are
abstract (`fit`, `featureNames`); `now` is the training wall-clock time,
which also stamps the freshly written artifact. -/
def trainFresh (fit : List DataRow → FittedPipeline)
    (featureNames : List DataRow → List String)
    (df : List DataRow) (now : ℕ) (fs : FileSystem) :
    FlightPriceModel × FileSystem :=
  let rm := buildRouteMedians df
  let p := fit df
  let names := featureNames df
  let version := "rf-" ++ toString now
  ({ pipeline := some p
     route_medians := some rm
     feature_names_out := some names
     model_version := some version },
   { fs with artifact := some ⟨now, p, rm, names, some version⟩ })

/-- pipeline.py lines 117-160: `train_or_load`.  Reuse the persisted
artifact when it exists and is at least as fresh as the dataset,
otherwise retrain and persist. -/
def train_or_load (fit : List DataRow → FittedPipeline)
    (featureNames : List DataRow → List String)
    (df : List DataRow) (now : ℕ) (fs : FileSystem) :
    FlightPriceModel × FileSystem :=
  match fs.artifact with
  | some a =>
      if fs.csv_mtime ≤ a.mtime then
        ({ pipeline := some a.pipeline
           route_medians := some a.route_medians
           feature_names_out := some a.feature_names_out
           model_version := some (a.model_version.getD ("loaded-" ++ toString a.mtime)) },
         fs)
      else trainFresh fit featureNames df now fs
  | none => trainFresh fit featureNames df now fs

/-- pipeline.py lines 238-242: `load_or_train_model` — train or load only
when the singleton has no pipeline yet, else return it untouched. -/
def load_or_train_model (fit : List DataRow → FittedPipeline)
    (featureNames : List DataRow → List String)
    (df : List DataRow) (now : ℕ)
    (m : FlightPriceModel) (fs : FileSystem) :
    FlightPriceModel × FileSystem :=
  match m.pipeline with
  | none => train_or_load fit featureNames df now fs
  | some _ => (m, fs)

instance (l : List ℚ) (s : ℚ) : Decidable (isStd l s) :=
  inferInstanceAs (Decidable (0 ≤ s ∧ s ^ 2 = popVariance l))

instance (l : List ℚ) (s : ℚ) : Decidable (isSampleStd l s) :=
  inferInstanceAs (Decidable (0 ≤ s ∧ s ^ 2 = sampleVariance l))

/-- A concrete route-median table for the witness theorems: one route
(Delhi, Mumbai) with median 4, global fallback 2. -/
def rmSample : RouteMedians := ⟨[(("Delhi", "Mumbai"), 4)], 2⟩

/-- A concrete feature row for the witness theorems. -/
def instSample : TripRow :=
  { airline := "Indigo", source_city := "Delhi", departure_time := "Morning",
    arrival_time := "Evening", destination_city := "Mumbai",
    stops := 0, cabinClass := 0, days_left := 10, duration := 5 }

/-- A two-tree forest predicting 1 and 3 (population std 1). -/
def forest13 : Forest := ⟨[fun _ => 1, fun _ => 3]⟩

/-- A two-tree forest predicting 0 and 2: the raw lower bound
1 - 1.96 is negative, and population and sample variance differ (1 vs 2). -/
def forest02 : Forest := ⟨[fun _ => 0, fun _ => 2]⟩

/-- A constant forest: every contribution delta is zero. -/
def forestConst : Forest := ⟨[fun _ => 7]⟩

/-- A forest whose trees read different columns, for contribution sorting. -/
def forestDur : Forest := ⟨[fun r => r.duration, fun r => (r.days_left : ℚ)]⟩

/-- C1: `impute_duration` returns a caller-supplied strictly positive
duration unchanged with wasImputed = false; otherwise it returns, with
wasImputed = true, the route-specific median when the exact
(origin, destination) pair is a key of the route table and the global
median when it is not. -/
theorem imputeDuration_contract (rm : RouteMedians) (src dst : String) (dur : Option ℚ) :
    (∀ d, dur = some d → 0 < d → imputeDuration rm src dst dur = (d, false, 0)) ∧
    (∀ d, dur = some d → ¬ 0 < d →
      imputeDuration rm src dst dur =
        (durationFor rm src dst, true, durationFor rm src dst)) ∧
    (dur = none →
      imputeDuration rm src dst dur =
        (durationFor rm src dst, true, durationFor rm src dst)) ∧
    (∀ m, lookupRoute rm src dst = some m → durationFor rm src dst = m) ∧
    (lookupRoute rm src dst = none →
      durationFor rm src dst = rm.global_duration_median) := by
  refine ⟨?_, ?_, ?_, ?_, ?_⟩
  · rintro d rfl hd
    simp [imputeDuration, hd]
  · rintro d rfl hd
    simp [imputeDuration, hd]
  · rintro rfl
    simp [imputeDuration]
  · intro m hm
    simp [durationFor, hm]
  · intro hm
    simp [durationFor, hm]

theorem imputeDuration_contract_witness :
    imputeDuration rmSample "Delhi" "Mumbai" (some 5) = (5, false, 0) ∧
    imputeDuration rmSample "Delhi" "Mumbai" none = (4, true, 4) := by
  constructor
  · exact (imputeDuration_contract rmSample "Delhi" "Mumbai" (some 5)).1 5 rfl (by norm_num)
  · have h := (imputeDuration_contract rmSample "Delhi" "Mumbai" none).2.2.1 rfl
    have hd : durationFor rmSample "Delhi" "Mumbai" = 4 :=
      (imputeDuration_contract rmSample "Delhi" "Mumbai" none).2.2.2.1 4 (by decide)
    rw [h, hd]

/-- C9: when `impute_duration` does not impute, the imputedValue
component of its result is exactly 0; when it does impute, the value and
imputedValue components coincide. -/
theorem imputeDuration_imputedValue (rm : RouteMedians) (src dst : String) (dur : Option ℚ) :
    ((imputeDuration rm src dst dur).2.1 = false →
      (imputeDuration rm src dst dur).2.2 = 0) ∧
    ((imputeDuration rm src dst dur).2.1 = true →
      (imputeDuration rm src dst dur).1 = (imputeDuration rm src dst dur).2.2) := by
  unfold imputeDuration
  cases dur with
  | none => simp
  | some d =>
    by_cases hd : 0 < d
    · simp [hd]
    · simp [hd]

theorem imputeDuration_imputedValue_witness :
    (imputeDuration rmSample "Delhi" "Mumbai" (some 5)).2.2 = 0 ∧
    (imputeDuration rmSample "Delhi" "Mumbai" none).1 =
      (imputeDuration rmSample "Delhi" "Mumbai" none).2.2 := by
  constructor
  · exact (imputeDuration_imputedValue rmSample "Delhi" "Mumbai" (some 5)).1 (by decide)
  · exact (imputeDuration_imputedValue rmSample "Delhi" "Mumbai" none).2 (by decide)

/-- C6: for each of the five categorical fields, normalization keeps a
value that is in the field's vocabulary (exact string membership)
unchanged and maps every other value to exactly "Unknown". -/
theorem normalizeCategory_spec (v : String) :
    ∀ p ∈ categoricalColumns,
      (v ∈ p.2 → normalizeCategory p.2 v = v) ∧
      (v ∉ p.2 → normalizeCategory p.2 v = "Unknown") := by
  intro p _
  constructor
  · intro h
    simp [normalizeCategory, h]
  · intro h
    simp [normalizeCategory, h]

theorem normalizeCategory_spec_witness :
    normalizeCategory ALLOWED_CITIES "Delhi" = "Delhi" ∧
    normalizeCategory ALLOWED_AIRLINES "Emirates" = "Unknown" := by
  constructor
  · exact ((normalizeCategory_spec "Delhi") ("source_city", ALLOWED_CITIES)
      (by decide)).1 (by decide)
  · exact ((normalizeCategory_spec "Emirates") ("airline", ALLOWED_AIRLINES)
      (by decide)).2 (by decide)

/-- C8: the contribution baseline forces airline, departure time-band and
arrival time-band to "Unknown" and duration to the global route-median
fallback, and keeps class, stops, days-left and both cities from the
input. -/
theorem baselineOf_fields (rm : RouteMedians) (inst : TripRow) :
    (baselineOf rm inst).airline = "Unknown" ∧
    (baselineOf rm inst).departure_time = "Unknown" ∧
    (baselineOf rm inst).arrival_time = "Unknown" ∧
    (baselineOf rm inst).duration = rm.global_duration_median ∧
    (baselineOf rm inst).cabinClass = inst.cabinClass ∧
    (baselineOf rm inst).stops = inst.stops ∧
    (baselineOf rm inst).days_left = inst.days_left ∧
    (baselineOf rm inst).source_city = inst.source_city ∧
    (baselineOf rm inst).destination_city = inst.destination_city :=
  ⟨rfl, rfl, rfl, rfl, rfl, rfl, rfl, rfl, rfl⟩

/-- C2: `predict_with_uncertainty` brackets its point prediction
(`lower ≤ point ≤ upper`), and the bounds the endpoint then reports are
`max(lower, 0)` and `max(upper, 0)`, hence non-negative even when the raw
interval is negative, and still ordered. -/
theorem predictWithUncertainty_bounds (f : Forest) (x : TripRow) (s : ℚ)
    (hs : isStd (treePredictions f x) s) :
    (predictWithUncertainty f x s).1 = forestPredict f x ∧
    (predictWithUncertainty f x s).2.1 ≤ (predictWithUncertainty f x s).1 ∧
    (predictWithUncertainty f x s).1 ≤ (predictWithUncertainty f x s).2.2 ∧
    0 ≤ (clampBounds (predictWithUncertainty f x s).2.1
      (predictWithUncertainty f x s).2.2).1 ∧
    0 ≤ (clampBounds (predictWithUncertainty f x s).2.1
      (predictWithUncertainty f x s).2.2).2 ∧
    (clampBounds (predictWithUncertainty f x s).2.1
      (predictWithUncertainty f x s).2.2).1 ≤
      (clampBounds (predictWithUncertainty f x s).2.1
        (predictWithUncertainty f x s).2.2).2 := by
  have e0 : (predictWithUncertainty f x s).1 = forestPredict f x := rfl
  have e1 : (predictWithUncertainty f x s).2.1 = forestPredict f x - 196 / 100 * s := rfl
  have e2 : (predictWithUncertainty f x s).2.2 = forestPredict f x + 196 / 100 * s := rfl
  have h0 : 0 ≤ 196 / 100 * s := by
    have hs0 := hs.1
    positivity
  have hlu : (predictWithUncertainty f x s).2.1 ≤ (predictWithUncertainty f x s).2.2 := by
    rw [e1, e2]; linarith
  refine ⟨e0, ?_, ?_, le_max_right _ _, le_max_right _ _, max_le_max hlu le_rfl⟩
  · rw [e0, e1]; linarith
  · rw [e0, e2]; linarith

theorem predictWithUncertainty_bounds_witness :
    isStd (treePredictions forest02 instSample) 1 ∧
    (predictWithUncertainty forest02 instSample 1).2.1 < 0 ∧
    0 ≤ (clampBounds (predictWithUncertainty forest02 instSample 1).2.1
      (predictWithUncertainty forest02 instSample 1).2.2).1 ∧
    0 ≤ (clampBounds (predictWithUncertainty forest02 instSample 1).2.1
      (predictWithUncertainty forest02 instSample 1).2.2).2 := by
  have hstd : isStd (treePredictions forest02 instSample) 1 := by
    norm_num [isStd, popVariance, mean, treePredictions, forest02]
  exact ⟨hstd,
    by norm_num [predictWithUncertainty, forestPredict, mean, treePredictions, forest02],
    (predictWithUncertainty_bounds forest02 instSample 1 hstd).2.2.2.1,
    (predictWithUncertainty_bounds forest02 instSample 1 hstd).2.2.2.2.1⟩

/-- C3 counterexample: for a forest of two trees predicting 0 and 2 the
value `np.std` produces (namely 1, the non-negative root of the
population variance) is not the sample standard deviation, and the
half-width of the interval the code produces squares to 1.96² times the
population variance but not to 1.96² times the Bessel-corrected (sample)
variance — so the interval is not `point ± 1.96 * sampleStd`. -/
theorem uncertainty_sample_std_counterexample :
    isStd (treePredictions forest02 instSample) 1 ∧
    ¬ isSampleStd (treePredictions forest02 instSample) 1 ∧
    ((predictWithUncertainty forest02 instSample 1).2.2 -
        (predictWithUncertainty forest02 instSample 1).1) ^ 2 =
      (196 / 100) ^ 2 * popVariance (treePredictions forest02 instSample) ∧
    ((predictWithUncertainty forest02 instSample 1).2.2 -
        (predictWithUncertainty forest02 instSample 1).1) ^ 2 ≠
      (196 / 100) ^ 2 * sampleVariance (treePredictions forest02 instSample) := by
  refine ⟨?_, ?_, ?_, ?_⟩
  · norm_num [isStd, popVariance, mean, treePredictions, forest02]
  · norm_num [isSampleStd, sampleVariance, mean, treePredictions, forest02]
  · norm_num [predictWithUncertainty, forestPredict, popVariance, mean,
      treePredictions, forest02]
  · norm_num [predictWithUncertainty, forestPredict, sampleVariance, mean,
      treePredictions, forest02]

/-- C3 (amended): the uncertainty interval is
`[point - 1.96*s, point + 1.96*s]` where `s` is the population (ddof=0,
as `np.std` computes it) standard deviation of the per-tree predictions:
each half-width squares to 1.96² times the population variance of the
per-tree predictions. -/
theorem predictWithUncertainty_interval (f : Forest) (x : TripRow) (s : ℚ)
    (hs : isStd (treePredictions f x) s) :
    predictWithUncertainty f x s =
      (forestPredict f x, forestPredict f x - 196 / 100 * s,
        forestPredict f x + 196 / 100 * s) ∧
    ((predictWithUncertainty f x s).2.2 - (predictWithUncertainty f x s).1) ^ 2 =
      (196 / 100) ^ 2 * popVariance (treePredictions f x) ∧
    ((predictWithUncertainty f x s).1 - (predictWithUncertainty f x s).2.1) ^ 2 =
      (196 / 100) ^ 2 * popVariance (treePredictions f x) := by
  have e1 : (predictWithUncertainty f x s).2.2 - (predictWithUncertainty f x s).1 =
      196 / 100 * s := by
    show forestPredict f x + 196 / 100 * s - forestPredict f x = 196 / 100 * s
    ring
  have e2 : (predictWithUncertainty f x s).1 - (predictWithUncertainty f x s).2.1 =
      196 / 100 * s := by
    show forestPredict f x - (forestPredict f x - 196 / 100 * s) = 196 / 100 * s
    ring
  refine ⟨rfl, ?_, ?_⟩
  · rw [e1, mul_pow, hs.2]
  · rw [e2, mul_pow, hs.2]

theorem predictWithUncertainty_interval_witness :
    isStd (treePredictions forest13 instSample) 1 ∧
    predictWithUncertainty forest13 instSample 1 = (2, 2 - 196 / 100, 2 + 196 / 100) := by
  have hstd : isStd (treePredictions forest13 instSample) 1 := by
    norm_num [isStd, popVariance, mean, treePredictions, forest13]
  refine ⟨hstd, ?_⟩
  have h := (predictWithUncertainty_interval forest13 instSample 1 hstd).1
  have hp : forestPredict forest13 instSample = 2 := by
    norm_num [forestPredict, mean, treePredictions, forest13]
  rw [h, hp]
  norm_num

/-- C10: a feature group whose restored-variant prediction equals the
baseline prediction gets the contribution record ⟨group, 0, "+"⟩, and any
reported contribution with magnitude 0 has direction "+", never "-". -/
theorem localContributions_zeroDelta (f : Forest) (rm : RouteMedians) (inst : TripRow)
    (g : String)
    (h : forestPredict f (toggled (baselineOf rm inst) inst g) =
      forestPredict f (baselineOf rm inst)) :
    contribFor f rm inst g = ⟨g, 0, "+"⟩ ∧
    ∀ c ∈ localContributions f rm inst, c.feature = g →
      c.contribution = 0 ∧ c.direction = "+" := by
  have hc : contribFor f rm inst g = ⟨g, 0, "+"⟩ := by
    unfold contribFor
    simp [h]
  refine ⟨hc, ?_⟩
  intro c hcmem hgfeat
  have hmem : c ∈ groups.map (contribFor f rm inst) := by
    have h1 := (List.take_sublist 5 _).subset hcmem
    rwa [List.mem_mergeSort] at h1
  obtain ⟨g', _, heq⟩ := List.mem_map.mp hmem
  have hfeat : c.feature = g' := by
    rw [← heq]
    simp [contribFor]
  have hg : g' = g := by rw [← hfeat, hgfeat]
  subst hg
  rw [← heq, hc]
  exact ⟨rfl, rfl⟩

theorem localContributions_zeroDelta_witness :
    contribFor forestConst rmSample instSample "airline" = ⟨"airline", 0, "+"⟩ :=
  (localContributions_zeroDelta forestConst rmSample instSample "airline"
    (by norm_num [forestPredict, mean, treePredictions, forestConst])).1

/-- Looking a key up in an association list that tabulates a function
over a key list yields the function's value exactly on listed keys. -/
theorem dictFind_map_self (l : List (String × String)) (fm : String × String → ℚ)
    (k : String × String) :
    dictFind (l.map (fun p => (p, fm p))) k = if k ∈ l then some (fm k) else none := by
  induction l with
  | nil => simp [dictFind]
  | cons p t ih =>
      simp only [List.map_cons, dictFind, List.mem_cons]
      by_cases hk : k = p
      · subst hk
        simp
      · simp [hk, ih]

/-- A route is a key of the grouped-median table exactly when the frame
has at least one record on that route with a known duration. -/
theorem mem_observedRoutes_iff (df : List DataRow) (src dst : String) :
    (src, dst) ∈ observedRoutes df ↔ knownDurations df src dst ≠ [] := by
  rw [Ne, List.eq_nil_iff_forall_not_mem]
  push_neg
  unfold observedRoutes knownDurations
  simp only [List.mem_dedup, List.mem_map, List.mem_filter, List.mem_filterMap,
    Bool.and_eq_true, beq_iff_eq, Option.isSome_iff_exists, Prod.mk.injEq]
  constructor
  · rintro ⟨r, ⟨hr, q, hq⟩, hsrc, hdst⟩
    exact ⟨q, r, ⟨hr, hsrc, hdst⟩, hq⟩
  · rintro ⟨q, r, ⟨hr, hsrc, hdst⟩, hq⟩
    exact ⟨r, ⟨hr, q, hq⟩, hsrc, hdst⟩

/-- C5: the route table maps each (origin, destination) pair having at
least one known-duration record to the median of those records'
durations, and no others; the global median is the median over all
records with a known duration, and exactly 2.0 when there are none. -/
theorem buildRouteMedians_spec (df : List DataRow) (src dst : String) :
    (knownDurations df src dst ≠ [] →
      lookupRoute (buildRouteMedians df) src dst =
        some (median (knownDurations df src dst))) ∧
    (knownDurations df src dst = [] →
      lookupRoute (buildRouteMedians df) src dst = none) ∧
    (allKnownDurations df ≠ [] →
      (buildRouteMedians df).global_duration_median = median (allKnownDurations df)) ∧
    (allKnownDurations df = [] →
      (buildRouteMedians df).global_duration_median = 2) := by
  have hlk : lookupRoute (buildRouteMedians df) src dst =
      if (src, dst) ∈ observedRoutes df
      then some (median (knownDurations df src dst)) else none :=
    dictFind_map_self (observedRoutes df)
      (fun p => median (knownDurations df p.1 p.2)) (src, dst)
  refine ⟨?_, ?_, ?_, ?_⟩
  · intro h
    rw [hlk, if_pos ((mem_observedRoutes_iff df src dst).mpr h)]
  · intro h
    rw [hlk, if_neg (fun hmem => (mem_observedRoutes_iff df src dst).mp hmem h)]
  · intro h
    simp [buildRouteMedians, h]
  · intro h
    simp [buildRouteMedians, h]

/-- A concrete frame for the witness: one route (Delhi, Mumbai) with
known durations [2, 4, 6] and one route with only a missing duration. -/
def dfSample : List DataRow :=
  [⟨"Delhi", "Mumbai", some 2⟩, ⟨"Delhi", "Mumbai", some 4⟩,
   ⟨"Delhi", "Mumbai", some 6⟩, ⟨"Delhi", "Kolkata", none⟩]

theorem buildRouteMedians_spec_witness :
    lookupRoute (buildRouteMedians dfSample) "Delhi" "Mumbai" = some 4 ∧
    lookupRoute (buildRouteMedians dfSample) "Delhi" "Kolkata" = none ∧
    (buildRouteMedians dfSample).global_duration_median = 4 := by
  have h24 : (2 : ℚ) ≤ 4 := by norm_num
  have h46 : (4 : ℚ) ≤ 6 := by norm_num
  have hsort : sortRat [2, 4, 6] = [2, 4, 6] := by
    simp [sortRat, insertSorted, h24, h46]
  have hmed : median [2, 4, 6] = 4 := by
    simp [median, hsort, List.getD]
  refine ⟨?_, ?_, ?_⟩
  · have h := (buildRouteMedians_spec dfSample "Delhi" "Mumbai").1 (by decide)
    have hkd : knownDurations dfSample "Delhi" "Mumbai" = [2, 4, 6] := rfl
    rw [h, hkd, hmed]
  · exact (buildRouteMedians_spec dfSample "Delhi" "Kolkata").2.1 (by decide)
  · have h := (buildRouteMedians_spec dfSample "Delhi" "Mumbai").2.2.1 (by decide)
    have hak : allKnownDurations dfSample = [2, 4, 6] := rfl
    rw [h, hak, hmed]

/-- The sort key relation of `local_contributions`
(`sort(key=..., reverse=True)`): descending magnitude. -/
def contribGE (a b : Contrib) : Bool := decide (b.contribution ≤ a.contribution)

theorem contribGE_trans : ∀ a b c : Contrib, contribGE a b → contribGE b c → contribGE a c := by
  intro a b c hab hbc
  simp only [contribGE, decide_eq_true_eq] at *
  exact le_trans hbc hab

theorem contribGE_total : ∀ a b : Contrib, contribGE a b || contribGE b a := by
  intro a b
  simp only [contribGE, Bool.or_eq_true, decide_eq_true_eq]
  exact le_total b.contribution a.contribution

/-- C4: `local_contributions` returns at most 5 records, sorted in
descending order of magnitude; every returned record's direction is "+"
or "-" and its magnitude is the absolute difference between its group's
restored-variant prediction and the baseline prediction. -/
theorem localContributions_spec (f : Forest) (rm : RouteMedians) (inst : TripRow) :
    (localContributions f rm inst).length ≤ 5 ∧
    (localContributions f rm inst).Pairwise
      (fun a b => b.contribution ≤ a.contribution) ∧
    ∀ c ∈ localContributions f rm inst,
      (c.direction = "+" ∨ c.direction = "-") ∧
      c.contribution =
        |forestPredict f (toggled (baselineOf rm inst) inst c.feature) -
          forestPredict f (baselineOf rm inst)| := by
  refine ⟨?_, ?_, ?_⟩
  · unfold localContributions
    rw [List.length_take]
    exact min_le_left _ _
  · unfold localContributions
    refine List.Pairwise.sublist (List.take_sublist 5 _) ?_
    have hs := List.sorted_mergeSort contribGE_trans contribGE_total
      (groups.map (contribFor f rm inst))
    exact hs.imp (fun hab => by simpa [contribGE] using hab)
  · intro c hc
    have hmem : c ∈ groups.map (contribFor f rm inst) := by
      have h1 := (List.take_sublist 5 _).subset hc
      rwa [List.mem_mergeSort] at h1
    obtain ⟨g, _, heq⟩ := List.mem_map.mp hmem
    subst heq
    constructor
    · rcases le_or_lt 0 (forestPredict f (toggled (baselineOf rm inst) inst g) -
        forestPredict f (baselineOf rm inst)) with hd | hd
      · left
        simp [contribFor, hd]
      · right
        simp [contribFor, not_le.mpr hd]
    · rfl

theorem localContributions_spec_witness :
    (localContributions forestDur rmSample instSample).length ≤ 5 ∧
    (localContributions forestDur rmSample instSample).Pairwise
      (fun a b => b.contribution ≤ a.contribution) ∧
    ∀ c ∈ localContributions forestDur rmSample instSample,
      (c.direction = "+" ∨ c.direction = "-") ∧
      c.contribution =
        |forestPredict forestDur
            (toggled (baselineOf rmSample instSample) instSample c.feature) -
          forestPredict forestDur (baselineOf rmSample instSample)| :=
  localContributions_spec forestDur rmSample instSample

/-- Helper for C7: whichever branch `train_or_load` takes, it installs a
pipeline. -/
theorem train_or_load_pipeline_isSome (fit : List DataRow → FittedPipeline)
    (featureNames : List DataRow → List String) (df : List DataRow)
    (now : ℕ) (fs : FileSystem) :
    ((train_or_load fit featureNames df now fs).1.pipeline).isSome := by
  obtain ⟨csv, art⟩ := fs
  cases art with
  | none => rfl
  | some a =>
      by_cases hc : csv ≤ a.mtime
      · simp [train_or_load, hc]
      · simp [train_or_load, hc, trainFresh]

/-- Helper for C7: `load_or_train_model` is a no-op once the singleton
holds a pipeline. -/
theorem load_or_train_model_noop (fit : List DataRow → FittedPipeline)
    (featureNames : List DataRow → List String) (df : List DataRow)
    (now : ℕ) (m : FlightPriceModel) (fs : FileSystem) (p : FittedPipeline)
    (hp : m.pipeline = some p) :
    load_or_train_model fit featureNames df now m fs = (m, fs) := by
  unfold load_or_train_model
  rw [hp]

/-- C7: calling `load_or_train_model` twice with the dataset and
filesystem unchanged returns the first call's state verbatim — in
particular the same version tag — and the second call neither retrains
nor rewrites the artifact. -/
theorem load_or_train_model_idempotent (fit : List DataRow → FittedPipeline)
    (featureNames : List DataRow → List String) (df : List DataRow)
    (now₁ now₂ : ℕ) (m : FlightPriceModel) (fs : FileSystem) :
    load_or_train_model fit featureNames df now₂
        (load_or_train_model fit featureNames df now₁ m fs).1
        (load_or_train_model fit featureNames df now₁ m fs).2 =
      load_or_train_model fit featureNames df now₁ m fs ∧
    (load_or_train_model fit featureNames df now₂
        (load_or_train_model fit featureNames df now₁ m fs).1
        (load_or_train_model fit featureNames df now₁ m fs).2).1.model_version =
      (load_or_train_model fit featureNames df now₁ m fs).1.model_version := by
  obtain ⟨mp, mr, mf, mv⟩ := m
  cases mp with
  | some p => exact ⟨rfl, rfl⟩
  | none =>
      set r := train_or_load fit featureNames df now₁ fs with hr
      have hsome := train_or_load_pipeline_isSome fit featureNames df now₁ fs
      obtain ⟨p, hp⟩ := Option.isSome_iff_exists.mp hsome
      have hno : load_or_train_model fit featureNames df now₂ r.1 r.2 = (r.1, r.2) :=
        load_or_train_model_noop fit featureNames df now₂ r.1 r.2 p hp
      constructor
      · show load_or_train_model fit featureNames df now₂ r.1 r.2 = r
        rw [hno]
      · show (load_or_train_model fit featureNames df now₂ r.1 r.2).1.model_version =
          r.1.model_version
        rw [hno]

end SkySense
